import Mathlib

/-!
Verification of the OAuth token-endpoint core of the authgear server
(`pkg/lib/oauth/handler/handler_token.go`).

The handler code is embedded shallowly: grant stores become association
lists inside an explicit `Store` value, every handler becomes a pure
function threading the `Store`, and the external collaborators that the
repository consumes through interfaces (token hashing, PKCE hashing,
DPoP proofs, the token service, the ID-token issuer, SID encoding) are
modelled from the specification, each marked `Modelled from the spec:` in
its doc comment.  Machine-level details that cannot influence the claims
(logging, request contexts, HTTP plumbing) are omitted.
-/

deriving instance DecidableEq for Except

/-- OAuth protocol error, mirroring `protocol.NewError(code, description)`. -/
structure OAuthError where
  code : String
  desc : String
deriving DecidableEq

/-- The error value `errInvalidAuthzCode` of handler_token.go line 366. -/
def errInvalidAuthzCode : OAuthError :=
  ⟨"invalid_grant", "invalid authorization code"⟩

/-- Modelled from the spec: `ErrInvalidDPoPKeyBinding` (defined outside the
excerpt) is an `invalid_dpop_proof`-style protocol error; only its identity
matters here, not its text. -/
def ErrInvalidDPoPKeyBinding : OAuthError :=
  ⟨"invalid_grant", "invalid DPoP key binding"⟩

/-- Modelled from the spec: `ErrInvalidRefreshToken` is the generic
`invalid_grant` error for refresh tokens. -/
def ErrInvalidRefreshToken : OAuthError :=
  ⟨"invalid_grant", "invalid refresh token"⟩

/-- Grant-type constants of handler_token.go lines 51-63. -/
def AuthorizationCodeGrantType : String := "authorization_code"

def RefreshTokenGrantType : String := "refresh_token"

def TokenExchangeGrantType : String := "urn:ietf:params:oauth:grant-type:token-exchange"

def AnonymousRequestGrantType : String := "urn:authgear:params:oauth:grant-type:anonymous-request"

def BiometricRequestGrantType : String := "urn:authgear:params:oauth:grant-type:biometric-request"

def App2AppRequestGrantType : String := "urn:authgear:params:oauth:grant-type:app2app-request"

def IDTokenGrantType : String := "urn:authgear:params:oauth:grant-type:id-token"

def SettingsActionGrantType : String := "urn:authgear:params:oauth:grant-type:settings-action"

/-- `whitelistedGrantTypes` of handler_token.go lines 78-87: grant types
always allowed for every client. -/
def whitelistedGrantTypes : List String :=
  [AuthorizationCodeGrantType,
   RefreshTokenGrantType,
   AnonymousRequestGrantType,
   BiometricRequestGrantType,
   App2AppRequestGrantType,
   IDTokenGrantType,
   SettingsActionGrantType,
   TokenExchangeGrantType]

/-- Modelled from the spec: scope constants of the `oauth` package
(`oauth.OfflineAccess`, `oauth.DeviceSSOScope`); stores only compare them
for equality, so representative strings suffice. -/
def OfflineAccess : String := "offline_access"

/-- Modelled from the spec: the device-SSO capability scope
(`oauth.DeviceSSOScope`). -/
def DeviceSSOScope : String := "device_sso"

/-- Modelled from the spec: session type tags (`session.TypeIdentityProvider`,
`session.TypeOfflineGrant`) used inside encoded SIDs. -/
def TypeIdentityProvider : String := "idp"

/-- Modelled from the spec: the offline-grant session type tag. -/
def TypeOfflineGrant : String := "offline_grant"

/-- Modelled from the spec: `oauth.GrantSessionKindOffline`. -/
def GrantSessionKindOffline : String := "offline_grant"

/-- Modelled from the spec: `oauth.GrantSessionKindSession`. -/
def GrantSessionKindSession : String := "idp_session"

/-- Modelled from the spec: `challenge.PurposeApp2AppRequest`. -/
def PurposeApp2AppRequest : String := "app2app_request"

/-- Modelled from the spec: `oauth.HashToken` maps an opaque token to the
hash under which grants are stored.  Only injectivity and inequality with
raw tokens matter, so it is modelled as a tagging function. -/
def HashToken (token : String) : String :=
  "sha256:" ++ token

/-- Modelled from the spec: `oauth.ContainsAllScopes` - every required
scope occurs in the granted scopes. -/
def ContainsAllScopes (scopes : List String) (required : List String) : Bool :=
  required.all (fun s => scopes.contains s)

/-- Modelled from the spec: a DPoP proof is summarised by its JKT; a grant
bound to a JKT matches only a proof carrying the same JKT, and an unbound
grant matches anything (`CodeGrant.MatchDPoPJKT`). -/
def matchDPoPJKT (boundJKT : String) (proofJKT : Option String) : Bool :=
  if boundJKT == "" then true
  else match proofJKT with
    | none => false
    | some j => j == boundJKT

/-- Authentication result carried by a code grant
(`authenticationinfo.T`). -/
structure AuthenticationInfo where
  userID : String
  authenticatedAt : Int
  authenticatedBySessionType : String
  authenticatedBySessionID : String
  shouldFireAuthenticatedEventWhenIssueOfflineGrant : Bool
deriving DecidableEq

/-- CodeGrant (and the structurally identical SettingsActionGrant): the
single-use artifact consumed by the code exchange.  The embedded
authorization request is flattened into the fields the handler reads
(scopes, code challenge, nonce, SSO flag). -/
structure CodeGrant where
  authorizationID : String
  idTokenHintSID : String
  redirectURI : String
  authReqScopes : List String
  authReqCodeChallenge : String
  authReqNonce : String
  authReqSSOEnabled : Bool
  dpopJKT : String
  expireAt : Int
  authInfo : AuthenticationInfo
deriving DecidableEq

/-- OfflineGrant: the refresh-token session record. -/
structure OfflineGrant where
  id : String
  clientID : String
  userID : String
  identityID : String
  idpSessionID : String
  ssoEnabled : Bool
  deviceSecretHash : String
  deviceSecretDPoPJKT : String
  app2AppDeviceKeyJWKJSON : String
  scopes : List String
  authenticatedAt : Int
  expireAt : Int
deriving DecidableEq

/-- Modelled from the spec: `OfflineGrant.MatchDeviceSecretDPoPJKT` - the
DPoP JKT bound to the device secret must match the presented proof. -/
def matchDeviceSecretDPoPJKT (g : OfflineGrant) (proofJKT : Option String) : Bool :=
  matchDPoPJKT g.deviceSecretDPoPJKT proofJKT

/-- Authorization record: (client, user, accumulated scopes). -/
structure Authorization where
  id : String
  userID : String
  scopes : List String
deriving DecidableEq

/-- Client configuration fields read by the token handler.  Public and
confidential are modelled from the spec as complementary client kinds
(`client.IsPublic()` / `client.IsConfidential()`). -/
structure OAuthClientConfig where
  clientID : String
  grantTypes : List String
  isConfidentialClient : Bool
  app2appEnabled : Bool
  app2appInsecureDeviceKeyBindingEnabled : Bool
  maxConcurrentSession : Nat
deriving DecidableEq

/-- `client.IsPublic()`, modelled from the spec as the complement of
confidential. -/
def clientIsPublic (c : OAuthClientConfig) : Bool :=
  !c.isConfidentialClient

/-- `client.IsConfidential()`. -/
def clientIsConfidential (c : OAuthClientConfig) : Bool :=
  c.isConfidentialClient

/-- The `protocol.TokenResponse` accumulator; every field starts empty and
handlers append to it. -/
structure TokenResponse where
  access_token : String := ""
  token_type : String := ""
  expires_in : Nat := 0
  refresh_token : String := ""
  id_token : String := ""
  device_secret : String := ""
  issued_token_type : String := ""
  codeField : String := ""
deriving DecidableEq

/-- The token request fields read by the embedded handlers
(`protocol.TokenRequest`).  `deviceInfo = none` models a request whose
`x_device_info` fails to parse. -/
structure TokenRequest where
  grantType : String
  codeParam : String := ""
  codeVerifier : String := ""
  redirectURI : String := ""
  refreshToken : String := ""
  clientID : String := ""
  clientSecret : String := ""
  jwt : String := ""
  codeChallenge : String := ""
  codeChallengeMethod : String := ""
  deviceSecret : String := ""
  scope : List String := []
  app2appDeviceKeyJWT : String := ""
  deviceInfo : Option String := some ""
deriving DecidableEq

/-- Modelled from the spec: the parsed payload of an app2app request JWT -
its one-time challenge token and the embedded device public key in
canonical JSON. -/
structure App2AppRequest where
  challengeToken : String
  keyJSON : String
deriving DecidableEq

/-- The mutable world visible to the handler: the grant stores (association
lists keyed by token hash or grant ID), the challenge store, the dispatched
event log and a counter used to mint fresh opaque tokens. -/
structure Store where
  codeGrants : List (String × CodeGrant) := []
  settingsGrants : List (String × CodeGrant) := []
  offlineGrants : List OfflineGrant := []
  authorizations : List (String × Authorization) := []
  challenges : List (String × String) := []
  events : List String := []
  ctr : Nat := 0
deriving DecidableEq

/-- The external collaborators the handler consumes, fixed for the duration
of one request: the clock, the S256 digest, the DPoP proof attached to the
request context, registered client secrets, expiry computation and app2app
JWT parsing/verification. -/
structure Env where
  now : Int
  s256 : String → String
  dpopProof : Option String
  clientCredentials : String → Option (List String)
  computeExpiry : OfflineGrant → Int
  newGrantExpiry : Int
  app2appParse : String → Option App2AppRequest
  app2appVerify : String → String → Bool

/-- Association-list lookup used by the grant stores. -/
def assocLookup (k : String) : List (String × α) → Option α
  | [] => none
  | kv :: rest => if k == kv.1 then some kv.2 else assocLookup k rest

/-- Association-list deletion used by the grant stores. -/
def assocDelete (k : String) (l : List (String × α)) : List (String × α) :=
  l.filter (fun kv => kv.1 != k)

/-- `GetOfflineGrant` on the store. -/
def getOfflineGrant (st : Store) (id : String) : Option OfflineGrant :=
  st.offlineGrants.find? (fun g => g.id == id)

/-- Update the stored offline grant with the given ID in place, returning
the updated record (the store semantics of the `UpdateOfflineGrant*`
methods). -/
def updateOfflineGrantWith (st : Store) (id : String) (f : OfflineGrant → OfflineGrant) :
    Store × Option OfflineGrant :=
  match st.offlineGrants.find? (fun g => g.id == id) with
  | none => (st, none)
  | some g =>
    let g2 := f g
    ({ st with offlineGrants := st.offlineGrants.map (fun x => if x.id == id then g2 else x) },
     some g2)

/-- `UpdateOfflineGrantAuthenticatedAt` (result discarded at the call
site, so only the store update matters). -/
def updateOfflineGrantAuthenticatedAt (st : Store) (id : String) (t : Int) (expiry : Int) : Store :=
  (updateOfflineGrantWith st id (fun g => { g with authenticatedAt := t, expireAt := expiry })).1

/-- `UpdateOfflineGrantDeviceSecretHash`. -/
def updateOfflineGrantDeviceSecretHash (st : Store) (id : String) (newHash : String)
    (dpopJKT : String) (expiry : Int) : Store × Option OfflineGrant :=
  updateOfflineGrantWith st id
    (fun g => { g with deviceSecretHash := newHash, deviceSecretDPoPJKT := dpopJKT, expireAt := expiry })

/-- `UpdateOfflineGrantApp2AppDeviceKey`. -/
def updateOfflineGrantApp2AppDeviceKey (st : Store) (id : String) (newKey : String)
    (expiry : Int) : Store × Option OfflineGrant :=
  updateOfflineGrantWith st id
    (fun g => { g with app2AppDeviceKeyJWKJSON := newKey, expireAt := expiry })

/-- `shouldIssueDeviceSecret` of handler_token.go lines 1779-1788. -/
def shouldIssueDeviceSecret (scopes : List String) : Bool :=
  scopes.contains DeviceSSOScope

/-- Modelled from the spec: `TokenService.IssueDeviceSecret` mints a fresh
device secret, writes it into the response and returns its hash.  Combined
here with the store update and expiry recomputation this is
`rotateDeviceSecret` of handler_token.go lines 396-417. -/
def rotateDeviceSecret (env : Env) (st : Store) (offlineGrant : OfflineGrant)
    (resp : TokenResponse) : Except OAuthError (Store × OfflineGrant × TokenResponse) :=
  let dpopJKT := env.dpopProof.getD ""
  let deviceSecret := "device-secret-" ++ toString st.ctr
  let st := { st with ctr := st.ctr + 1 }
  let resp := { resp with device_secret := deviceSecret }
  let deviceSecretHash := HashToken deviceSecret
  let expiry := env.computeExpiry offlineGrant
  match updateOfflineGrantDeviceSecretHash st offlineGrant.id deviceSecretHash dpopJKT expiry with
  | (st2, some g2) => .ok (st2, g2, resp)
  | (_, none) => .error ⟨"server_error", "offline grant not found"⟩

/-- `rotateDeviceSecretIfSufficientScope` of handler_token.go lines
439-454. -/
def rotateDeviceSecretIfSufficientScope (env : Env) (st : Store)
    (authorizedScopes : List String) (offlineGrant : OfflineGrant) (resp : TokenResponse) :
    Except OAuthError (Store × OfflineGrant × Bool × TokenResponse) :=
  if !(ContainsAllScopes authorizedScopes [DeviceSSOScope]) then
    .ok (st, offlineGrant, false, resp)
  else
    match rotateDeviceSecret env st offlineGrant resp with
    | .error e => .error e
    | .ok (st2, g2, resp2) => .ok (st2, g2, true, resp2)

/-- `rotateDeviceSecretIfDeviceSecretIsPresentAndValid` of handler_token.go
lines 419-437; the constant-time hash comparison is modelled as equality of
the compared byte strings. -/
def rotateDeviceSecretIfDeviceSecretIsPresentAndValid (env : Env) (st : Store)
    (deviceSecret : String) (authorizedScopes : List String) (offlineGrant : OfflineGrant)
    (resp : TokenResponse) : Except OAuthError (Store × OfflineGrant × Bool × TokenResponse) :=
  if deviceSecret == "" then
    .ok (st, offlineGrant, false, resp)
  else if !(HashToken deviceSecret == offlineGrant.deviceSecretHash) then
    .ok (st, offlineGrant, false, resp)
  else
    rotateDeviceSecretIfSufficientScope env st authorizedScopes offlineGrant resp

/-- `app2appUpdateDeviceKeyIfNeeded` of handler_token.go lines 456-487.
`app2AppDeviceKey` is the device key in canonical JSON (the result of
`json.Marshal`); `subtle.ConstantTimeCompare(a, b) != 0` is equality of
the marshalled bytes. -/
def app2appUpdateDeviceKeyIfNeeded (env : Env) (st : Store) (client : OAuthClientConfig)
    (offlineGrant : OfflineGrant) (app2AppDeviceKey : Option String) :
    Except OAuthError (Store × OfflineGrant) :=
  match app2AppDeviceKey with
  | some newKeyJson =>
    if client.app2appEnabled then
      let isSameKey := newKeyJson == offlineGrant.app2AppDeviceKeyJWKJSON
      if isSameKey then
        .ok (st, offlineGrant)
      else if !client.app2appInsecureDeviceKeyBindingEnabled then
        .error ⟨"invalid_request",
          "x_app2app_insecure_device_key_binding_enabled must be true to allow updating x_app2app_device_key_jwt"⟩
      else if offlineGrant.app2AppDeviceKeyJWKJSON != "" then
        .error ⟨"invalid_grant", "app2app device key cannot be changed"⟩
      else
        let expiry := env.computeExpiry offlineGrant
        match updateOfflineGrantApp2AppDeviceKey st offlineGrant.id newKeyJson expiry with
        | (st2, some newGrant) => .ok (st2, newGrant)
        | (_, none) => .error ⟨"server_error", "offline grant not found"⟩
    else .ok (st, offlineGrant)
  | none => .ok (st, offlineGrant)

/-- The `ds_hash` claim of an ID token as the handler observes it:
`none` when absent, `some none` when present but not a string,
`some (some s)` when a string. -/
structure IDTokenModel where
  dsHashClaim : Option (Option String)
deriving DecidableEq

/-- `verifyIDTokenDeviceSecretHash` of handler_token.go lines 694-717:
all checks are evaluated unconditionally and each failing check overwrites
`err`, so the final error is the last failing check's. -/
def verifyIDTokenDeviceSecretHash (env : Env) (offlineGrant : OfflineGrant)
    (idToken : IDTokenModel) (deviceSecret : String) : Option OAuthError :=
  let deviceSecretHash := HashToken deviceSecret
  let err : Option OAuthError := none
  let err := match idToken.dsHashClaim with
    | none => some ⟨"invalid_grant", "expected ds_hash to be present in id token (subject_token)"⟩
    | some _ => err
  let dsHash := match idToken.dsHashClaim with
    | some (some s) => s
    | _ => ""
  let err := match idToken.dsHashClaim with
    | some (some _) => err
    | _ => some ⟨"invalid_grant", "expected ds_hash to be a string"⟩
  let err := if dsHash == deviceSecretHash then err
    else some ⟨"invalid_grant",
      "the hash of device_secret (actor_token) does not match ds_hash in id token (subject_token)"⟩
  let err := if offlineGrant.deviceSecretHash == deviceSecretHash then err
    else some ⟨"invalid_grant", "the device_secret (actor_token) does not bind to the session"⟩
  let err := if matchDeviceSecretDPoPJKT offlineGrant env.dpopProof then err
    else some ErrInvalidDPoPKeyBinding
  err

/-- Strip an expected character prefix from a character list, returning the
remainder on success. -/
def stripPrefixChars : List Char → List Char → Option (List Char)
  | [], rest => some rest
  | c :: cs, d :: ds => if c == d then stripPrefixChars cs ds else none
  | _ :: _, [] => none

/-- Modelled from the spec: `oidc.EncodeSID` encodes a session type and
session ID into the `sid` claim; any injective encoding works. -/
def encodeSID (typ : String) (id : String) : String :=
  typ ++ ":" ++ id

/-- Modelled from the spec: `oidc.DecodeSID`, the inverse of `encodeSID`;
it only recognises the two session types. -/
def decodeSID (sid : String) : Option (String × String) :=
  match stripPrefixChars (TypeIdentityProvider.data ++ [':']) sid.data with
  | some rest => some (TypeIdentityProvider, String.mk rest)
  | none =>
    match stripPrefixChars (TypeOfflineGrant.data ++ [':']) sid.data with
    | some rest => some (TypeOfflineGrant, String.mk rest)
    | none => none

/-- Modelled from the spec: `IDTokenIssuer.IssueIDToken` returns a signed
ID token; the token itself is opaque, so it is modelled as a non-empty
string derived from the client and SID. -/
def mkIDToken (clientID : String) (sid : String) (nonce : String) (deviceSecretHash : String) : String :=
  "id-token-" ++ clientID ++ ":" ++ sid ++ ":" ++ nonce ++ ":" ++ deviceSecretHash

/-- Options passed to the offline-grant issuers (`IssueOfflineGrantOptions`). -/
structure IssueOfflineGrantOptions where
  scopes : List String
  authorizationID : String
  authenticationInfo : AuthenticationInfo
  idpSessionID : String := ""
  deviceInfo : Option String := none
  ssoEnabled : Bool := false
  app2appDeviceKey : Option String := none
  identityID : String := ""
  issueDeviceSecret : Bool := false
  dpopJKT : String := ""
deriving DecidableEq

/-- Modelled from the spec: `TokenService.IssueOfflineGrant` creates a new
offline grant with the requested scopes/authentication-info/SSO
flag/app2app key/DPoP JKT, mints a refresh token (and a device secret if
requested) into the response when one is supplied (`resp = none` models
the nil response of the confidential-client path), and returns the grant
and the refresh-token hash. -/
def tokenServiceIssueOfflineGrant (env : Env) (st : Store) (client : OAuthClientConfig)
    (opts : IssueOfflineGrantOptions) (resp : Option TokenResponse) :
    Store × OfflineGrant × String × Option TokenResponse :=
  let n := st.ctr
  let refreshToken := "refresh-token-" ++ toString n
  let deviceSecret := "device-secret-" ++ toString n
  let grant : OfflineGrant :=
    { id := "offline-grant-" ++ toString n
      clientID := client.clientID
      userID := opts.authenticationInfo.userID
      identityID := opts.identityID
      idpSessionID := opts.idpSessionID
      ssoEnabled := opts.ssoEnabled
      deviceSecretHash := if opts.issueDeviceSecret then HashToken deviceSecret else ""
      deviceSecretDPoPJKT := if opts.issueDeviceSecret then opts.dpopJKT else ""
      app2AppDeviceKeyJWKJSON := opts.app2appDeviceKey.getD ""
      scopes := opts.scopes
      authenticatedAt := opts.authenticationInfo.authenticatedAt
      expireAt := env.newGrantExpiry }
  let resp := resp.map (fun rp =>
    let rp := { rp with refresh_token := refreshToken }
    if opts.issueDeviceSecret then { rp with device_secret := deviceSecret } else rp)
  ({ st with offlineGrants := grant :: st.offlineGrants, ctr := st.ctr + 1 },
   grant, HashToken refreshToken, resp)

/-- Modelled from the spec: `TokenService.IssueRefreshTokenForOfflineGrant`
adds a fresh refresh token to the existing offline grant and writes it into
the response. -/
def tokenServiceIssueRefreshTokenForOfflineGrant (st : Store) (offlineGrantID : String)
    (resp : TokenResponse) : Except OAuthError (Store × OfflineGrant × String × TokenResponse) :=
  match getOfflineGrant st offlineGrantID with
  | none => .error ⟨"server_error", "offline grant not found"⟩
  | some grant =>
    let refreshToken := "refresh-token-" ++ toString st.ctr
    .ok ({ st with ctr := st.ctr + 1 }, grant, HashToken refreshToken,
         { resp with refresh_token := refreshToken })

/-- Modelled from the spec: `TokenService.IssueAccessGrant` encodes an
access token (opaque, non-empty) into the response. -/
def tokenServiceIssueAccessGrant (st : Store) (resp : TokenResponse) : Store × TokenResponse :=
  let tok := "access-token-" ++ toString st.ctr
  ({ st with ctr := st.ctr + 1 },
   { resp with access_token := tok, token_type := "Bearer", expires_in := 1800 })

/-- `ListClientOfflineGrants`: the store's offline grants for one
(client, user) pair. -/
def listClientOfflineGrants (st : Store) (clientID : String) (userID : String) :
    List OfflineGrant :=
  st.offlineGrants.filter (fun g => g.clientID == clientID && g.userID == userID)

/-- Modelled from the spec: `SessionManager.RevokeWithoutEvent` deletes the
offline grant without dispatching the session-ended event (the event log is
untouched). -/
def sessionManagerRevokeWithoutEvent (st : Store) (g : OfflineGrant) : Store :=
  { st with offlineGrants := st.offlineGrants.filter (fun x => x.id != g.id) }

/-- `revokeClientOfflineGrants` of handler_token.go lines 1409-1423. -/
def revokeClientOfflineGrants (st : Store) (client : OAuthClientConfig) (userID : String) :
    Store :=
  (listClientOfflineGrants st client.clientID userID).foldl sessionManagerRevokeWithoutEvent st

/-- `issueOfflineGrant` of handler_token.go lines 1425-1443: revoke the
(client, user) pair's existing grants when `MaxConcurrentSession == 1` and
revocation is requested, then create the new grant. -/
def issueOfflineGrant (env : Env) (st : Store) (client : OAuthClientConfig) (userID : String)
    (resp : Option TokenResponse) (opts : IssueOfflineGrantOptions)
    (revokeExistingGrants : Bool) : Store × OfflineGrant × String × Option TokenResponse :=
  let st :=
    if revokeExistingGrants && client.maxConcurrentSession == 1 then
      revokeClientOfflineGrants st client userID
    else st
  tokenServiceIssueOfflineGrant env st client opts resp

/-- `app2appVerifyAndConsumeChallenge` of handler_token.go lines 368-380:
parse the app2app JWT, consume its one-time challenge and require purpose
`app2app-request`. -/
def app2appVerifyAndConsumeChallenge (env : Env) (st : Store) (jwtStr : String) :
    Except OAuthError (App2AppRequest × Store) :=
  match env.app2appParse jwtStr with
  | none => .error ⟨"invalid_request", "invalid app2app jwt payload"⟩
  | some tok =>
    match assocLookup tok.challengeToken st.challenges with
    | none => .error ⟨"invalid_request", "invalid app2app jwt challenge"⟩
    | some purpose =>
      let st := { st with challenges := assocDelete tok.challengeToken st.challenges }
      if purpose != PurposeApp2AppRequest then
        .error ⟨"invalid_request", "invalid app2app jwt challenge"⟩
      else
        .ok (tok, st)

/-- `app2appGetDeviceKeyJWKVerified` of handler_token.go lines 382-394. -/
def app2appGetDeviceKeyJWKVerified (env : Env) (st : Store) (jwtStr : String) :
    Except OAuthError (String × Store) :=
  match app2appVerifyAndConsumeChallenge env st jwtStr with
  | .error e => .error e
  | .ok (tok, st) =>
    if !(env.app2appVerify jwtStr tok.keyJSON) then
      .error ⟨"invalid_request", "invalid app2app jwt signature"⟩
    else
      .ok (tok.keyJSON, st)

/-- The app2app device-key phase of `doIssueTokensForAuthorizationCode`
(handler_token.go lines 1482-1489). -/
def app2appKeyStep (env : Env) (st : Store) (client : OAuthClientConfig)
    (app2appDeviceKeyJWT : String) : Except OAuthError (Option String × Store) :=
  if app2appDeviceKeyJWT != "" && client.app2appEnabled then
    match app2appGetDeviceKeyJWKVerified env st app2appDeviceKeyJWT with
    | .error e => .error e
    | .ok (k, st) => .ok (some k, st)
  else
    .ok (none, st)

/-- The reauth phase of `doIssueTokensForAuthorizationCode`
(handler_token.go lines 1495-1528): when the code carries an ID-token-hint
SID naming an offline grant, refresh its auth time, rotate its device
secret when the scopes allow, and update its app2app device key. -/
def reauthStep (env : Env) (st : Store) (client : OAuthClientConfig) (code : CodeGrant)
    (scopes : List String) (app2appDevicePublicKey : Option String) (resp : TokenResponse) :
    Except OAuthError (Store × TokenResponse) :=
  if code.idTokenHintSID != "" then
    match decodeSID code.idTokenHintSID with
    | some (typ, sessionID) =>
      if typ == TypeOfflineGrant then
        match getOfflineGrant st sessionID with
        | some offlineGrant =>
          let st :=
            if code.authInfo.authenticatedAt > offlineGrant.authenticatedAt then
              updateOfflineGrantAuthenticatedAt st offlineGrant.id
                code.authInfo.authenticatedAt (env.computeExpiry offlineGrant)
            else st
          match rotateDeviceSecretIfSufficientScope env st scopes offlineGrant resp with
          | .error e => .error e
          | .ok (st, offlineGrant2, _, resp) =>
            match app2appDevicePublicKey with
            | some k =>
              match app2appUpdateDeviceKeyIfNeeded env st client offlineGrant2 (some k) with
              | .error e => .error e
              | .ok (st, _) => .ok (st, resp)
            | none => .ok (st, resp)
        | none => .ok (st, resp)
      else .ok (st, resp)
    | none => .ok (st, resp)
  else .ok (st, resp)

/-- Result of the session-selection phase of
`doIssueTokensForAuthorizationCode` (handler_token.go lines 1536-1648). -/
structure SessionResult where
  st : Store
  resp : TokenResponse
  sid : String
  accessTokenSessionID : String
  accessTokenSessionKind : String
  refreshTokenHash : String
  deviceSecretHash : String
deriving DecidableEq

/-- The session-selection phase of `doIssueTokensForAuthorizationCode`
(handler_token.go lines 1536-1648): issue a refresh token when requested
(reusing the authenticating offline grant or creating a new one, firing the
user-authenticated event when required), otherwise fall back to the
ID-token-hint session or, for confidential clients, to a fresh
refresh-token-less offline grant. -/
def sessionStep (env : Env) (st : Store) (client : OAuthClientConfig) (code : CodeGrant)
    (opts : IssueOfflineGrantOptions) (issueRefreshToken : Bool) (resp : TokenResponse) :
    Except OAuthError SessionResult :=
  let info := code.authInfo
  if issueRefreshToken then
    let step : Except OAuthError (Store × OfflineGrant × String × TokenResponse) :=
      if info.authenticatedBySessionType == TypeOfflineGrant then
        tokenServiceIssueRefreshTokenForOfflineGrant st info.authenticatedBySessionID resp
      else
        let (st2, g, th, respOpt) := issueOfflineGrant env st client info.userID (some resp) opts true
        .ok (st2, g, th, respOpt.getD resp)
    match step with
    | .error e => .error e
    | .ok (st, offlineGrant, tokenHash, resp) =>
      let st :=
        if info.shouldFireAuthenticatedEventWhenIssueOfflineGrant then
          { st with events := "user.authenticated" :: st.events }
        else st
      .ok { st := st, resp := resp
            sid := encodeSID TypeOfflineGrant offlineGrant.id
            accessTokenSessionID := offlineGrant.id
            accessTokenSessionKind := GrantSessionKindOffline
            refreshTokenHash := tokenHash
            deviceSecretHash := offlineGrant.deviceSecretHash }
  else if code.idTokenHintSID != "" then
    let sid := code.idTokenHintSID
    match decodeSID sid with
    | some (typ, sessionID) =>
      if typ == TypeOfflineGrant then
        match getOfflineGrant st sessionID with
        | none => .error ⟨"server_error", "offline grant not found"⟩
        | some g =>
          .ok { st := st, resp := resp, sid := sid
                accessTokenSessionID := sessionID
                accessTokenSessionKind := GrantSessionKindOffline
                refreshTokenHash := ""
                deviceSecretHash := g.deviceSecretHash }
      else
        .ok { st := st, resp := resp, sid := sid
              accessTokenSessionID := sessionID
              accessTokenSessionKind := GrantSessionKindSession
              refreshTokenHash := ""
              deviceSecretHash := "" }
    | none =>
      .ok { st := st, resp := resp, sid := sid
            accessTokenSessionID := ""
            accessTokenSessionKind := ""
            refreshTokenHash := ""
            deviceSecretHash := "" }
  else if clientIsConfidential client then
    let (st2, offlineGrant, _, _) := issueOfflineGrant env st client info.userID none opts false
    .ok { st := st2, resp := resp
          sid := encodeSID TypeOfflineGrant offlineGrant.id
          accessTokenSessionID := offlineGrant.id
          accessTokenSessionKind := GrantSessionKindOffline
          refreshTokenHash := ""
          deviceSecretHash := "" }
  else
    .ok { st := st, resp := resp, sid := ""
          accessTokenSessionID := ""
          accessTokenSessionKind := ""
          refreshTokenHash := ""
          deviceSecretHash := "" }

/-- `doIssueTokensForAuthorizationCode` of handler_token.go lines
1446-1687. -/
def doIssueTokensForAuthorizationCode (env : Env) (st : Store) (client : OAuthClientConfig)
    (code : CodeGrant) (authz : Authorization) (app2appDeviceKeyJWT : String) :
    Except OAuthError (TokenResponse × Store) :=
  let scopes := code.authReqScopes
  let issueIDToken := scopes.contains "openid"
  let issueDeviceToken := shouldIssueDeviceSecret scopes
  let issueRefreshToken :=
    scopes.contains OfflineAccess && client.grantTypes.contains RefreshTokenGrantType
  let info := code.authInfo
  match app2appKeyStep env st client app2appDeviceKeyJWT with
  | .error e => .error e
  | .ok (app2appDevicePublicKey, st) =>
    let resp : TokenResponse := {}
    match reauthStep env st client code scopes app2appDevicePublicKey resp with
    | .error e => .error e
    | .ok (st, resp) =>
      let dpopJKT := env.dpopProof.getD ""
      let offlineGrantIDPSessionID :=
        if info.authenticatedBySessionType == TypeIdentityProvider then
          info.authenticatedBySessionID
        else ""
      let opts : IssueOfflineGrantOptions :=
        { scopes := scopes
          authorizationID := authz.id
          authenticationInfo := info
          idpSessionID := offlineGrantIDPSessionID
          deviceInfo := none
          ssoEnabled := code.authReqSSOEnabled
          app2appDeviceKey := app2appDevicePublicKey
          issueDeviceSecret := issueDeviceToken
          dpopJKT := dpopJKT }
      match sessionStep env st client code opts issueRefreshToken resp with
      | .error e => .error e
      | .ok sr =>
        if sr.accessTokenSessionID == "" || sr.accessTokenSessionKind == "" then
          .error ⟨"invalid_request", "cannot issue access token"⟩
        else
          let (st, resp) := tokenServiceIssueAccessGrant sr.st sr.resp
          if issueIDToken then
            if sr.sid == "" then
              .error ⟨"invalid_request", "cannot issue ID token"⟩
            else
              .ok ({ resp with
                      id_token := mkIDToken client.clientID sr.sid code.authReqNonce sr.deviceSecretHash },
                   st)
          else
            .ok (resp, st)

/-- `verifyClientSecret`: the client-secret phase of the code exchanges
(handler_token.go lines 556-577 and 1845-1866); the constant-time octet
comparison is modelled as string equality against the registered
secrets. -/
def verifyClientSecret (env : Env) (client : OAuthClientConfig) (r : TokenRequest) :
    Option OAuthError :=
  if clientIsConfidential client then
    if r.clientSecret == "" then
      some ⟨"invalid_request", "invalid client secret"⟩
    else
      match env.clientCredentials client.clientID with
      | none => some ⟨"invalid_request", "client secret is not supported for the client"⟩
      | some keys =>
        if keys.contains r.clientSecret then none
        else some ⟨"invalid_request", "invalid client secret"⟩
  else none

/-- The expiry / redirect-URI / PKCE / client-secret checks of
`IssueTokensForAuthorizationCode` (handler_token.go lines 536-577).
`pkce.NewS256Verifier` is modelled from the spec as always constructible,
with `Verify` comparing the S256 digest of the verifier against the stored
challenge. -/
def authCodeChecks (env : Env) (client : OAuthClientConfig) (codeGrant : CodeGrant)
    (r : TokenRequest) : Option OAuthError :=
  if env.now > codeGrant.expireAt then
    some errInvalidAuthzCode
  else if codeGrant.redirectURI != r.redirectURI then
    some ⟨"invalid_request", "invalid redirect URI"⟩
  else
    let needVerifyPKCE :=
      clientIsPublic client || codeGrant.authReqCodeChallenge != "" || r.codeVerifier != ""
    if needVerifyPKCE && env.s256 r.codeVerifier != codeGrant.authReqCodeChallenge then
      some errInvalidAuthzCode
    else
      verifyClientSecret env client r

/-- The expiry / redirect-URI / PKCE / client-secret checks of
`IssueTokensForSettingsActionCode` (handler_token.go lines 1825-1866),
transcribed from that function's own text. -/
def settingsActionChecks (env : Env) (client : OAuthClientConfig)
    (settingsActionGrant : CodeGrant) (r : TokenRequest) : Option OAuthError :=
  if env.now > settingsActionGrant.expireAt then
    some errInvalidAuthzCode
  else if settingsActionGrant.redirectURI != r.redirectURI then
    some ⟨"invalid_request", "invalid redirect URI"⟩
  else
    let needVerifyPKCE :=
      clientIsPublic client || settingsActionGrant.authReqCodeChallenge != "" || r.codeVerifier != ""
    if needVerifyPKCE && env.s256 r.codeVerifier != settingsActionGrant.authReqCodeChallenge then
      some errInvalidAuthzCode
    else
      verifyClientSecret env client r

/-- `IssueTokensForAuthorizationCode` of handler_token.go lines 503-597:
fetch and validate the code grant, issue the tokens, then delete the
grant.  Restoring the UI parameters has no effect on the token response
and is omitted; the best-effort `DeleteCodeGrant` always succeeds in the
store model. -/
def IssueTokensForAuthorizationCode (env : Env) (st : Store) (client : OAuthClientConfig)
    (r : TokenRequest) : Except OAuthError (TokenResponse × Store) :=
  match r.deviceInfo with
  | none => .error ⟨"invalid_request", "invalid x_device_info"⟩
  | some _ =>
    let codeHash := HashToken r.codeParam
    match assocLookup codeHash st.codeGrants with
    | none => .error errInvalidAuthzCode
    | some codeGrant =>
      if !(matchDPoPJKT codeGrant.dpopJKT env.dpopProof) then
        .error ErrInvalidDPoPKeyBinding
      else
        match authCodeChecks env client codeGrant r with
        | some e => .error e
        | none =>
          match assocLookup codeGrant.authorizationID st.authorizations with
          | none => .error errInvalidAuthzCode
          | some authz =>
            match doIssueTokensForAuthorizationCode env st client codeGrant authz
                r.app2appDeviceKeyJWT with
            | .error e => .error e
            | .ok (resp, st2) =>
              .ok (resp, { st2 with codeGrants := assocDelete codeHash st2.codeGrants })

/-- `IssueTokensForSettingsActionCode` of handler_token.go lines
1803-1874: the same fetch and checks as the authorization-code exchange,
but no token issuance - on success the grant is deleted and the empty
token response returned. -/
def IssueTokensForSettingsActionCode (env : Env) (st : Store) (client : OAuthClientConfig)
    (r : TokenRequest) : Except OAuthError (TokenResponse × Store) :=
  let codeHash := HashToken r.codeParam
  match assocLookup codeHash st.settingsGrants with
  | none => .error errInvalidAuthzCode
  | some settingsActionGrant =>
    match settingsActionChecks env client settingsActionGrant r with
    | some e => .error e
    | none =>
      .ok ({}, { st with settingsGrants := assocDelete codeHash st.settingsGrants })

/-- Modelled from the spec: `pkce.CodeChallengeMethodS256`. -/
def CodeChallengeMethodS256 : String := "S256"

/-- `validateRequest` of handler_token.go lines 307-364. -/
def validateRequest (r : TokenRequest) (client : OAuthClientConfig) : Option OAuthError :=
  if r.grantType == SettingsActionGrantType || r.grantType == AuthorizationCodeGrantType then
    if r.codeParam == "" then
      some ⟨"invalid_request", "code is required"⟩
    else if clientIsPublic client && r.codeVerifier == "" then
      some ⟨"invalid_request", "PKCE code verifier is required"⟩
    else if clientIsConfidential client && r.clientSecret == "" then
      some ⟨"invalid_request", "client secret is required"⟩
    else none
  else if r.grantType == RefreshTokenGrantType then
    if r.refreshToken == "" then some ⟨"invalid_request", "refresh token is required"⟩
    else none
  else if r.grantType == AnonymousRequestGrantType then
    if r.jwt == "" then some ⟨"invalid_request", "jwt is required"⟩
    else none
  else if r.grantType == BiometricRequestGrantType then
    if r.jwt == "" then some ⟨"invalid_request", "jwt is required"⟩
    else none
  else if r.grantType == App2AppRequestGrantType then
    if r.jwt == "" then some ⟨"invalid_request", "jwt is required"⟩
    else if r.refreshToken == "" then some ⟨"invalid_request", "refresh token is required"⟩
    else if r.clientID == "" then some ⟨"invalid_request", "client id is required"⟩
    else if r.redirectURI == "" then some ⟨"invalid_request", "redirect uri is required"⟩
    else if r.codeChallenge != "" && r.codeChallengeMethod != CodeChallengeMethodS256 then
      some ⟨"invalid_request", "only S256 PKCE transform is supported"⟩
    else none
  else if r.grantType == IDTokenGrantType then none
  else if r.grantType == TokenExchangeGrantType then none
  else some ⟨"unsupported_grant_type", "grant type is not supported"⟩

/-- Outcome of `doHandle`: a successful response, a protocol error, or the
`panic("oauth: unexpected grant type")` branch of handler_token.go line
302, kept as an explicit marker so its unreachability can be stated. -/
inductive HandleResult where
  | ok (resp : TokenResponse) (st : Store)
  | err (e : OAuthError)
  | panicUnexpectedGrantType
deriving DecidableEq

/-- The per-grant handlers that the claims do not exercise, abstracted as
request-scoped black boxes supplied by the environment. -/
structure HandlerStubs where
  handleRefreshToken : Store → TokenRequest → Except OAuthError (TokenResponse × Store)
  handleTokenExchange : Store → TokenRequest → Except OAuthError (TokenResponse × Store)
  handleAnonymousRequest : Store → TokenRequest → Except OAuthError (TokenResponse × Store)
  handleBiometricRequest : Store → TokenRequest → Except OAuthError (TokenResponse × Store)
  handleApp2AppRequest : Store → TokenRequest → Except OAuthError (TokenResponse × Store)
  handleIDToken : Store → TokenRequest → Except OAuthError (TokenResponse × Store)

/-- Lift an `Except` handler result into a `HandleResult`. -/
def liftResult : Except OAuthError (TokenResponse × Store) → HandleResult
  | .ok (resp, st) => .ok resp st
  | .error e => .err e

/-- `doHandle` of handler_token.go lines 256-304: validate the request,
enforce the client/whitelist grant-type check, then dispatch. -/
def doHandle (env : Env) (stubs : HandlerStubs) (st : Store) (client : OAuthClientConfig)
    (r : TokenRequest) : HandleResult :=
  match validateRequest r client with
  | some e => .err e
  | none =>
    let allowedGrantTypes := client.grantTypes ++ whitelistedGrantTypes
    if allowedGrantTypes.contains r.grantType then
      if r.grantType == AuthorizationCodeGrantType then
        liftResult (IssueTokensForAuthorizationCode env st client r)
      else if r.grantType == RefreshTokenGrantType then
        liftResult (stubs.handleRefreshToken st r)
      else if r.grantType == TokenExchangeGrantType then
        liftResult (stubs.handleTokenExchange st r)
      else if r.grantType == AnonymousRequestGrantType then
        liftResult (stubs.handleAnonymousRequest st r)
      else if r.grantType == BiometricRequestGrantType then
        liftResult (stubs.handleBiometricRequest st r)
      else if r.grantType == App2AppRequestGrantType then
        liftResult (stubs.handleApp2AppRequest st r)
      else if r.grantType == IDTokenGrantType then
        liftResult (stubs.handleIDToken st r)
      else if r.grantType == SettingsActionGrantType then
        liftResult (IssueTokensForSettingsActionCode env st client r)
      else
        .panicUnexpectedGrantType
    else
      .err ⟨"unauthorized_client", "grant type is not allowed for this client"⟩
-- helper lemmas (to be appended)

theorem assocLookup_delete_self (k : String) (l : List (String × α)) :
    assocLookup k (assocDelete k l) = none := by
  induction l with
  | nil => rfl
  | cons kv rest ih =>
    unfold assocDelete at ih ⊢
    rw [List.filter_cons]
    by_cases hk : kv.1 = k
    · simp only [hk, bne_self_eq_false, if_false, Bool.false_eq_true]
      exact ih
    · have hb : (kv.1 != k) = true := by simp [bne, hk]
      rw [hb, if_pos rfl]
      unfold assocLookup
      have hk2 : (k == kv.1) = false := by
        simp [beq_eq_false_iff_ne, Ne.symm hk]
      rw [hk2]
      simpa using ih

theorem string_append_ne_empty (a b : String) (h : a.length ≠ 0) : a ++ b ≠ "" := by
  intro heq
  have := congrArg String.length heq
  rw [String.length_append] at this
  simp at this
  exact h (by omega)

theorem updateOfflineGrantWith_codeGrants (st : Store) (id : String) (f : OfflineGrant → OfflineGrant) :
    ((updateOfflineGrantWith st id f).1).codeGrants = st.codeGrants := by
  unfold updateOfflineGrantWith
  split <;> rfl

theorem updateOfflineGrantAuthenticatedAt_codeGrants (st : Store) (id : String) (t expiry : Int) :
    (updateOfflineGrantAuthenticatedAt st id t expiry).codeGrants = st.codeGrants := by
  unfold updateOfflineGrantAuthenticatedAt
  exact updateOfflineGrantWith_codeGrants ..

theorem rotateDeviceSecret_codeGrants (env : Env) (st : Store) (g : OfflineGrant)
    (resp : TokenResponse) (st2 : Store) (g2 : OfflineGrant) (resp2 : TokenResponse)
    (h : rotateDeviceSecret env st g resp = .ok (st2, g2, resp2)) :
    st2.codeGrants = st.codeGrants := by
  unfold rotateDeviceSecret at h
  dsimp only at h
  split at h
  · rename_i st3 g3 heq
    simp only [Except.ok.injEq, Prod.mk.injEq] at h
    obtain ⟨h1, _, _⟩ := h
    subst h1
    have h1 : (updateOfflineGrantDeviceSecretHash { st with ctr := st.ctr + 1 } g.id
        (HashToken ("device-secret-" ++ toString st.ctr)) (env.dpopProof.getD "")
        (env.computeExpiry g)).1 = st3 := by rw [heq]
    rw [← h1]
    unfold updateOfflineGrantDeviceSecretHash
    exact updateOfflineGrantWith_codeGrants ..
  · exact absurd h (by simp)

theorem rotateDeviceSecretIfSufficientScope_codeGrants (env : Env) (st : Store)
    (scopes : List String) (g : OfflineGrant) (resp : TokenResponse) (st2 : Store)
    (g2 : OfflineGrant) (b : Bool) (resp2 : TokenResponse)
    (h : rotateDeviceSecretIfSufficientScope env st scopes g resp = .ok (st2, g2, b, resp2)) :
    st2.codeGrants = st.codeGrants := by
  unfold rotateDeviceSecretIfSufficientScope at h
  split at h
  · simp only [Except.ok.injEq, Prod.mk.injEq] at h
    obtain ⟨h1, _, _, _⟩ := h
    subst h1
    rfl
  · split at h
    · exact absurd h (by simp)
    · rename_i st3 g3 resp3 heq
      simp only [Except.ok.injEq, Prod.mk.injEq] at h
      obtain ⟨h1, _, _, _⟩ := h
      subst h1
      exact rotateDeviceSecret_codeGrants env st g resp st3 g3 resp3 heq

theorem app2appUpdateDeviceKeyIfNeeded_codeGrants (env : Env) (st : Store)
    (client : OAuthClientConfig) (g : OfflineGrant) (key : Option String) (st2 : Store)
    (g2 : OfflineGrant)
    (h : app2appUpdateDeviceKeyIfNeeded env st client g key = .ok (st2, g2)) :
    st2.codeGrants = st.codeGrants := by
  unfold app2appUpdateDeviceKeyIfNeeded at h
  split at h
  · rename_i nk
    split at h
    · dsimp only at h
      split at h
      · simp only [Except.ok.injEq, Prod.mk.injEq] at h
        obtain ⟨h1, _⟩ := h
        subst h1
        rfl
      · split at h
        · exact absurd h (by simp)
        · split at h
          · exact absurd h (by simp)
          · split at h
            · rename_i st3 g3 heq
              simp only [Except.ok.injEq, Prod.mk.injEq] at h
              obtain ⟨h1, _⟩ := h
              subst h1
              have h1 : (updateOfflineGrantApp2AppDeviceKey st g.id nk
                  (env.computeExpiry g)).1 = st3 := by rw [heq]
              rw [← h1]
              unfold updateOfflineGrantApp2AppDeviceKey
              exact updateOfflineGrantWith_codeGrants ..
            · exact absurd h (by simp)
    · simp only [Except.ok.injEq, Prod.mk.injEq] at h
      obtain ⟨h1, _⟩ := h
      subst h1
      rfl
  · simp only [Except.ok.injEq, Prod.mk.injEq] at h
    obtain ⟨h1, _⟩ := h
    subst h1
    rfl

theorem app2appVerifyAndConsumeChallenge_codeGrants (env : Env) (st : Store) (jwtStr : String)
    (tok : App2AppRequest) (st2 : Store)
    (h : app2appVerifyAndConsumeChallenge env st jwtStr = .ok (tok, st2)) :
    st2.codeGrants = st.codeGrants := by
  unfold app2appVerifyAndConsumeChallenge at h
  split at h
  · exact absurd h (by simp)
  · split at h
    · exact absurd h (by simp)
    · dsimp only at h
      split at h
      · exact absurd h (by simp)
      · simp only [Except.ok.injEq, Prod.mk.injEq] at h
        obtain ⟨_, h2⟩ := h
        rw [← h2]

theorem app2appGetDeviceKeyJWKVerified_codeGrants (env : Env) (st : Store) (jwtStr : String)
    (k : String) (st2 : Store)
    (h : app2appGetDeviceKeyJWKVerified env st jwtStr = .ok (k, st2)) :
    st2.codeGrants = st.codeGrants := by
  unfold app2appGetDeviceKeyJWKVerified at h
  split at h
  · exact absurd h (by simp)
  · rename_i tok st3 heq
    split at h
    · exact absurd h (by simp)
    · simp only [Except.ok.injEq, Prod.mk.injEq] at h
      obtain ⟨_, h2⟩ := h
      rw [← h2]
      exact app2appVerifyAndConsumeChallenge_codeGrants env st jwtStr tok st3 heq

theorem app2appKeyStep_codeGrants (env : Env) (st : Store) (client : OAuthClientConfig)
    (jwtStr : String) (key : Option String) (st2 : Store)
    (h : app2appKeyStep env st client jwtStr = .ok (key, st2)) :
    st2.codeGrants = st.codeGrants := by
  unfold app2appKeyStep at h
  split at h
  · split at h
    · exact absurd h (by simp)
    · rename_i k st3 heq
      simp only [Except.ok.injEq, Prod.mk.injEq] at h
      obtain ⟨_, h2⟩ := h
      rw [← h2]
      exact app2appGetDeviceKeyJWKVerified_codeGrants env st jwtStr k st3 heq
  · simp only [Except.ok.injEq, Prod.mk.injEq] at h
    obtain ⟨_, h2⟩ := h
    rw [← h2]

theorem reauthStep_codeGrants (env : Env) (st : Store) (client : OAuthClientConfig)
    (code : CodeGrant) (scopes : List String) (key : Option String) (resp : TokenResponse)
    (st2 : Store) (resp2 : TokenResponse)
    (h : reauthStep env st client code scopes key resp = .ok (st2, resp2)) :
    st2.codeGrants = st.codeGrants := by
  unfold reauthStep at h
  split at h
  · split at h
    · split at h
      · split at h
        · rename_i og hog
          dsimp only at h
          split at h
          · exact absurd h (by simp)
          · rename_i st3 og2 b resp3 heq
            have h3 : st3.codeGrants = st.codeGrants := by
              have hmid := rotateDeviceSecretIfSufficientScope_codeGrants env _ scopes og resp
                st3 og2 b resp3 heq
              rw [hmid]
              split
              · exact updateOfflineGrantAuthenticatedAt_codeGrants ..
              · rfl
            split at h
            · split at h
              · exact absurd h (by simp)
              · rename_i k2 st4 g4 heq2
                simp only [Except.ok.injEq, Prod.mk.injEq] at h
                obtain ⟨h1, _⟩ := h
                rw [← h1]
                rw [app2appUpdateDeviceKeyIfNeeded_codeGrants env st3 client og2 _ st4 g4 heq2]
                exact h3
            · simp only [Except.ok.injEq, Prod.mk.injEq] at h
              obtain ⟨h1, _⟩ := h
              rw [← h1]
              exact h3
        · simp only [Except.ok.injEq, Prod.mk.injEq] at h
          obtain ⟨h1, _⟩ := h
          rw [← h1]
      · simp only [Except.ok.injEq, Prod.mk.injEq] at h
        obtain ⟨h1, _⟩ := h
        rw [← h1]
    · simp only [Except.ok.injEq, Prod.mk.injEq] at h
      obtain ⟨h1, _⟩ := h
      rw [← h1]
  · simp only [Except.ok.injEq, Prod.mk.injEq] at h
    obtain ⟨h1, _⟩ := h
    rw [← h1]

theorem tokenServiceIssueOfflineGrant_codeGrants (env : Env) (st : Store)
    (client : OAuthClientConfig) (opts : IssueOfflineGrantOptions) (resp : Option TokenResponse) :
    ((tokenServiceIssueOfflineGrant env st client opts resp).1).codeGrants = st.codeGrants := by
  rfl

theorem revokeFold_codeGrants (l : List OfflineGrant) (st : Store) :
    (l.foldl sessionManagerRevokeWithoutEvent st).codeGrants = st.codeGrants := by
  induction l generalizing st with
  | nil => rfl
  | cons g rest ih =>
    rw [List.foldl_cons, ih]
    rfl

theorem revokeClientOfflineGrants_codeGrants (st : Store) (client : OAuthClientConfig)
    (userID : String) :
    (revokeClientOfflineGrants st client userID).codeGrants = st.codeGrants := by
  unfold revokeClientOfflineGrants
  exact revokeFold_codeGrants ..

theorem issueOfflineGrant_codeGrants (env : Env) (st : Store) (client : OAuthClientConfig)
    (userID : String) (resp : Option TokenResponse) (opts : IssueOfflineGrantOptions)
    (rev : Bool) :
    ((issueOfflineGrant env st client userID resp opts rev).1).codeGrants = st.codeGrants := by
  unfold issueOfflineGrant
  dsimp only
  rw [tokenServiceIssueOfflineGrant_codeGrants]
  split
  · exact revokeClientOfflineGrants_codeGrants ..
  · rfl

theorem tokenServiceIssueRefreshTokenForOfflineGrant_codeGrants (st : Store) (id : String)
    (resp : TokenResponse) (st2 : Store) (g : OfflineGrant) (th : String) (resp2 : TokenResponse)
    (h : tokenServiceIssueRefreshTokenForOfflineGrant st id resp = .ok (st2, g, th, resp2)) :
    st2.codeGrants = st.codeGrants := by
  unfold tokenServiceIssueRefreshTokenForOfflineGrant at h
  split at h
  · exact absurd h (by simp)
  · simp only [Except.ok.injEq, Prod.mk.injEq] at h
    obtain ⟨h1, _⟩ := h
    rw [← h1]

theorem sessionStep_codeGrants (env : Env) (st : Store) (client : OAuthClientConfig)
    (code : CodeGrant) (opts : IssueOfflineGrantOptions) (irt : Bool) (resp : TokenResponse)
    (sr : SessionResult)
    (h : sessionStep env st client code opts irt resp = .ok sr) :
    sr.st.codeGrants = st.codeGrants := by
  unfold sessionStep at h
  split at h
  · dsimp only at h
    split at h
    · exact absurd h (by simp)
    · rename_i st3 og th resp3 heq
      have h3 : st3.codeGrants = st.codeGrants := by
        split at heq
        · exact tokenServiceIssueRefreshTokenForOfflineGrant_codeGrants st _ resp st3 og th resp3 heq
        · simp only [Except.ok.injEq, Prod.mk.injEq] at heq
          obtain ⟨h1, _⟩ := heq
          rw [← h1]
          exact issueOfflineGrant_codeGrants ..
      simp only [Except.ok.injEq] at h
      rw [← h]
      dsimp only
      split
      · exact h3
      · exact h3
  · dsimp only at h
    split at h
    · split at h
      · split at h
        · split at h
          · exact absurd h (by simp)
          · simp only [Except.ok.injEq] at h
            rw [← h]
        · simp only [Except.ok.injEq] at h
          rw [← h]
      · simp only [Except.ok.injEq] at h
        rw [← h]
    · split at h
      · simp only [Except.ok.injEq] at h
        rw [← h]
        exact issueOfflineGrant_codeGrants env st client code.authInfo.userID none opts false
      · simp only [Except.ok.injEq] at h
        rw [← h]

theorem doIssue_codeGrants (env : Env) (st : Store) (client : OAuthClientConfig)
    (code : CodeGrant) (authz : Authorization) (jwtStr : String) (resp : TokenResponse)
    (st2 : Store)
    (h : doIssueTokensForAuthorizationCode env st client code authz jwtStr = .ok (resp, st2)) :
    st2.codeGrants = st.codeGrants := by
  unfold doIssueTokensForAuthorizationCode at h
  dsimp only at h
  split at h
  · exact absurd h (by simp)
  · rename_i key stA heqA
    split at h
    · exact absurd h (by simp)
    · rename_i stB respB heqB
      split at h
      · exact absurd h (by simp)
      · rename_i sr heqC
        have hA : stA.codeGrants = st.codeGrants :=
          app2appKeyStep_codeGrants env st client jwtStr key stA heqA
        have hB : stB.codeGrants = stA.codeGrants :=
          reauthStep_codeGrants env stA client code _ key _ stB respB heqB
        have hC : sr.st.codeGrants = stB.codeGrants :=
          sessionStep_codeGrants env stB client code _ _ respB sr heqC
        split at h
        · exact absurd h (by simp)
        · split at h
          · split at h
            · exact absurd h (by simp)
            · simp only [Except.ok.injEq, Prod.mk.injEq] at h
              obtain ⟨_, h2⟩ := h
              rw [← h2]
              rw [show (tokenServiceIssueAccessGrant sr.st sr.resp).1.codeGrants
                  = sr.st.codeGrants from rfl]
              rw [hC, hB, hA]
          · simp only [Except.ok.injEq, Prod.mk.injEq] at h
            obtain ⟨_, h2⟩ := h
            rw [← h2]
            rw [show (tokenServiceIssueAccessGrant sr.st sr.resp).1.codeGrants
                = sr.st.codeGrants from rfl]
            rw [hC, hB, hA]

/-- C6: the pre-authenticated-URL device-secret verification succeeds if
and only if every check passes: the `ds_hash` claim is present, is a
string, equals the hash of the presented device secret, the grant's stored
device-secret hash equals that hash, and the DPoP proof matches the
grant's binding; consequently a mismatched `ds_hash` fails even when the
device secret independently matches the grant's stored hash. -/
theorem c6_verify_device_secret_hash_iff (env : Env) (g : OfflineGrant)
    (idToken : IDTokenModel) (ds : String) :
    verifyIDTokenDeviceSecretHash env g idToken ds = none ↔
      (idToken.dsHashClaim = some (some (HashToken ds)) ∧
       g.deviceSecretHash = HashToken ds ∧
       matchDeviceSecretDPoPJKT g env.dpopProof = true) := by
  have hne : ("" == HashToken ds) = false := by
    simp only [HashToken, beq_eq_false_iff_ne, ne_eq]
    intro hc
    have hlen := congrArg String.length hc
    rw [String.length_append] at hlen
    have h7 : "sha256:".length = 7 := by decide
    have h0 : "".length = 0 := by decide
    omega
  unfold verifyIDTokenDeviceSecretHash
  dsimp only
  cases hcl : idToken.dsHashClaim with
  | none =>
    simp only [hne, Bool.false_eq_true, if_false]
    repeat' split
    all_goals simp_all
  | some cl =>
    cases cl with
    | none =>
      simp only [hne, Bool.false_eq_true, if_false]
      repeat' split
      all_goals simp_all
    | some s =>
      by_cases hs : s = HashToken ds
      · subst hs
        simp only [beq_self_eq_true, if_true]
        repeat' split
        all_goals simp_all
      · have hsf : (s == HashToken ds) = false := by simp [hs]
        simp only [hsf, Bool.false_eq_true, if_false]
        repeat' split
        all_goals simp_all

def envD : Env :=
  { now := 0
    s256 := fun v => "ch-" ++ v
    dpopProof := none
    clientCredentials := fun _ => some ["secret1"]
    computeExpiry := fun _ => 1000
    newGrantExpiry := 1000
    app2appParse := fun _ => none
    app2appVerify := fun _ _ => false }

def grantBoundA : OfflineGrant :=
  { id := "og1"
    clientID := "client1"
    userID := "user1"
    identityID := ""
    idpSessionID := ""
    ssoEnabled := false
    deviceSecretHash := ""
    deviceSecretDPoPJKT := ""
    app2AppDeviceKeyJWKJSON := "KEYA"
    scopes := []
    authenticatedAt := 0
    expireAt := 100 }

def clientSecureBinding : OAuthClientConfig :=
  { clientID := "client1"
    grantTypes := []
    isConfidentialClient := false
    app2appEnabled := true
    app2appInsecureDeviceKeyBindingEnabled := false
    maxConcurrentSession := 0 }

def clientInsecureBinding : OAuthClientConfig :=
  { clientSecureBinding with app2appInsecureDeviceKeyBindingEnabled := true }

/-- C3 counterexample: with the insecure-binding flag disabled, submitting a
key different from the already-bound key fails with `invalid_request`, not
`invalid_grant`, refuting the claim that the failure is `invalid_grant`
regardless of the flag. -/
theorem c3_counterexample :
    app2appUpdateDeviceKeyIfNeeded envD {} clientSecureBinding grantBoundA (some "KEYB") =
      .error ⟨"invalid_request",
        "x_app2app_insecure_device_key_binding_enabled must be true to allow updating x_app2app_device_key_jwt"⟩ ∧
    "invalid_request" ≠ "invalid_grant" := by
  constructor
  · decide
  · decide

/-- C3 (amended): on a grant with a bound app2app device key, resubmitting
the byte-identical key is a no-op returning no error; submitting a different
key fails - with `invalid_grant` when the client's insecure-binding flag is
enabled, and with `invalid_request` when it is disabled. -/
theorem c3_app2app_device_key_binding (env : Env) (st : Store) (client : OAuthClientConfig)
    (g : OfflineGrant) (key : String) (henabled : client.app2appEnabled = true) :
    (key = g.app2AppDeviceKeyJWKJSON →
      app2appUpdateDeviceKeyIfNeeded env st client g (some key) = .ok (st, g)) ∧
    (key ≠ g.app2AppDeviceKeyJWKJSON → g.app2AppDeviceKeyJWKJSON ≠ "" →
      app2appUpdateDeviceKeyIfNeeded env st client g (some key) =
        .error (if client.app2appInsecureDeviceKeyBindingEnabled then
            ⟨"invalid_grant", "app2app device key cannot be changed"⟩
          else
            ⟨"invalid_request",
              "x_app2app_insecure_device_key_binding_enabled must be true to allow updating x_app2app_device_key_jwt"⟩)) := by
  constructor
  · intro hk
    unfold app2appUpdateDeviceKeyIfNeeded
    simp [henabled, hk]
  · intro hk hb
    unfold app2appUpdateDeviceKeyIfNeeded
    by_cases hins : client.app2appInsecureDeviceKeyBindingEnabled
    · simp [henabled, hk, hins, hb]
    · simp [henabled, hk, hins]

/-- C3 witness: the amended claim applied to a grant bound to key `KEYA`:
resubmitting `KEYA` is a no-op, and submitting `KEYB` with the
insecure-binding flag enabled fails with `invalid_grant`. -/
theorem c3_app2app_device_key_binding_witness :
    app2appUpdateDeviceKeyIfNeeded envD {} clientInsecureBinding grantBoundA (some "KEYA") =
      .ok ({}, grantBoundA) ∧
    app2appUpdateDeviceKeyIfNeeded envD {} clientInsecureBinding grantBoundA (some "KEYB") =
      .error ⟨"invalid_grant", "app2app device key cannot be changed"⟩ := by
  constructor
  · exact (c3_app2app_device_key_binding envD {} clientInsecureBinding grantBoundA "KEYA"
      (by decide)).1 (by decide)
  · exact (c3_app2app_device_key_binding envD {} clientInsecureBinding grantBoundA "KEYB"
      (by decide)).2 (by decide) (by decide)

theorem containsAll_singleton (scopes : List String) (s : String) :
    ContainsAllScopes scopes [s] = scopes.contains s := by
  unfold ContainsAllScopes
  rw [List.all_cons, List.all_nil, Bool.and_true]

theorem rotateDeviceSecret_ok (env : Env) (st : Store) (g : OfflineGrant)
    (resp : TokenResponse) (gm : OfflineGrant)
    (hgm : st.offlineGrants.find? (fun x => x.id == g.id) = some gm) :
    ∃ st2 g2 resp2, rotateDeviceSecret env st g resp = .ok (st2, g2, resp2) := by
  unfold rotateDeviceSecret updateOfflineGrantDeviceSecretHash updateOfflineGrantWith
  dsimp only
  rw [show ({ st with ctr := st.ctr + 1 } : Store).offlineGrants = st.offlineGrants from rfl, hgm]
  exact ⟨_, _, _, rfl⟩

/-- C4: conditional device-secret rotation rotates exactly when the caller
presented a non-empty device secret whose hash matches the grant's current
hash and the authorized scopes contain the device-SSO scope (and the grant
is present in the store so the rotation can be written back); in every
other case the store, grant and response are returned unchanged with no
error. -/
theorem c4_conditional_rotation (env : Env) (st : Store) (deviceSecret : String)
    (authorizedScopes : List String) (g : OfflineGrant) (resp : TokenResponse) :
    (¬(deviceSecret ≠ "" ∧ HashToken deviceSecret = g.deviceSecretHash ∧
        authorizedScopes.contains DeviceSSOScope = true) →
      rotateDeviceSecretIfDeviceSecretIsPresentAndValid env st deviceSecret authorizedScopes g resp =
        .ok (st, g, false, resp)) ∧
    ((deviceSecret ≠ "" ∧ HashToken deviceSecret = g.deviceSecretHash ∧
        authorizedScopes.contains DeviceSSOScope = true) →
      (getOfflineGrant st g.id).isSome = true →
      ∃ st2 g2 resp2,
        rotateDeviceSecretIfDeviceSecretIsPresentAndValid env st deviceSecret authorizedScopes g resp =
          .ok (st2, g2, true, resp2)) := by
  constructor
  · intro hnot
    unfold rotateDeviceSecretIfDeviceSecretIsPresentAndValid
    by_cases hds : deviceSecret = ""
    · simp [hds]
    · by_cases hh : HashToken deviceSecret = g.deviceSecretHash
      · have hsc : authorizedScopes.contains DeviceSSOScope = false := by
          rcases Bool.eq_false_or_eq_true (authorizedScopes.contains DeviceSSOScope) with h | h
          · exact absurd ⟨hds, hh, h⟩ hnot
          · exact h
        have hbeq : (deviceSecret == "") = false := by simp [hds]
        have hbeq2 : (HashToken deviceSecret == g.deviceSecretHash) = true := by simp [hh]
        rw [hbeq, hbeq2]
        simp only [Bool.false_eq_true, if_false, Bool.not_true, Bool.false_eq_true, if_false]
        unfold rotateDeviceSecretIfSufficientScope
        rw [containsAll_singleton, hsc]
        rfl
      · have hbeq : (deviceSecret == "") = false := by simp [hds]
        have hbeq2 : (HashToken deviceSecret == g.deviceSecretHash) = false := by simp [hh]
        rw [hbeq, hbeq2]
        rfl
  · rintro ⟨hds, hh, hsc⟩ hmem
    unfold getOfflineGrant at hmem
    rw [Option.isSome_iff_exists] at hmem
    obtain ⟨gm, hgm⟩ := hmem
    obtain ⟨st2, g2, resp2, hrot⟩ := rotateDeviceSecret_ok env st g resp gm hgm
    have hbeq : (deviceSecret == "") = false := by simp [hds]
    have hbeq2 : (HashToken deviceSecret == g.deviceSecretHash) = true := by simp [hh]
    unfold rotateDeviceSecretIfDeviceSecretIsPresentAndValid
    rw [hbeq, hbeq2]
    simp only [Bool.false_eq_true, if_false, Bool.not_true, if_false]
    unfold rotateDeviceSecretIfSufficientScope
    rw [containsAll_singleton, hsc]
    simp only [Bool.not_true, Bool.false_eq_true, if_false]
    rw [hrot]
    exact ⟨st2, g2, resp2, rfl⟩

def grantWithSecret : OfflineGrant :=
  { grantBoundA with id := "og2", deviceSecretHash := HashToken "devsec1" }

def storeWithGrant : Store :=
  { offlineGrants := [grantWithSecret] }

/-- C4 witness: both directions at concrete inputs - a request without a
device secret leaves the grant untouched, and a valid secret with the
`device_sso` scope rotates. -/
theorem c4_conditional_rotation_witness :
    rotateDeviceSecretIfDeviceSecretIsPresentAndValid envD storeWithGrant "" [DeviceSSOScope]
      grantWithSecret {} = .ok (storeWithGrant, grantWithSecret, false, {}) ∧
    (∃ st2 g2 resp2,
      rotateDeviceSecretIfDeviceSecretIsPresentAndValid envD storeWithGrant "devsec1"
        [DeviceSSOScope] grantWithSecret {} = .ok (st2, g2, true, resp2)) := by
  constructor
  · exact (c4_conditional_rotation envD storeWithGrant "" [DeviceSSOScope] grantWithSecret {}).1
      (by simp)
  · exact (c4_conditional_rotation envD storeWithGrant "devsec1" [DeviceSSOScope]
      grantWithSecret {}).2 ⟨by decide, by decide, by decide⟩ (by decide)

/-- C7: the settings-action code exchange applies exactly the same expiry,
redirect-URI, PKCE and client-secret checks as the authorization-code
exchange (the two check phases agree on every input), and on success it
issues no access, refresh or ID token - the response is the empty token
response - and deletes the SettingsActionGrant from its store. -/
theorem c7_settings_action_exchange (env : Env) :
    (∀ (client : OAuthClientConfig) (grant : CodeGrant) (r : TokenRequest),
      settingsActionChecks env client grant r = authCodeChecks env client grant r) ∧
    (∀ (st : Store) (client : OAuthClientConfig) (r : TokenRequest) (resp : TokenResponse)
        (st2 : Store),
      IssueTokensForSettingsActionCode env st client r = .ok (resp, st2) →
      resp = {} ∧
      st2.settingsGrants = assocDelete (HashToken r.codeParam) st.settingsGrants ∧
      assocLookup (HashToken r.codeParam) st2.settingsGrants = none) := by
  constructor
  · intro client grant r
    rfl
  · intro st client r resp st2 h
    unfold IssueTokensForSettingsActionCode at h
    dsimp only at h
    split at h
    · exact absurd h (by simp)
    · split at h
      · exact absurd h (by simp)
      · simp only [Except.ok.injEq, Prod.mk.injEq] at h
        obtain ⟨h1, h2⟩ := h
        refine ⟨h1.symm, ?_, ?_⟩
        · rw [← h2]
        · rw [← h2]
          exact assocLookup_delete_self ..

def settingsGrantW : CodeGrant :=
  { authorizationID := "authz1"
    idTokenHintSID := ""
    redirectURI := "https://app/cb"
    authReqScopes := []
    authReqCodeChallenge := "ch-ver"
    authReqNonce := ""
    authReqSSOEnabled := false
    dpopJKT := ""
    expireAt := 100
    authInfo :=
      { userID := "user1"
        authenticatedAt := 0
        authenticatedBySessionType := ""
        authenticatedBySessionID := ""
        shouldFireAuthenticatedEventWhenIssueOfflineGrant := false } }

def settingsStoreW : Store :=
  { settingsGrants := [(HashToken "code1", settingsGrantW)] }

def publicClientW : OAuthClientConfig :=
  { clientID := "client1"
    grantTypes := ["refresh_token"]
    isConfidentialClient := false
    app2appEnabled := false
    app2appInsecureDeviceKeyBindingEnabled := false
    maxConcurrentSession := 0 }

def settingsRequestW : TokenRequest :=
  { grantType := SettingsActionGrantType
    codeParam := "code1"
    codeVerifier := "ver"
    redirectURI := "https://app/cb" }

/-- C7 witness: a concrete successful settings-action exchange returns the
empty token response and removes the grant from the store. -/
theorem c7_settings_action_exchange_witness :
    ({} : TokenResponse) = {} ∧
    (match IssueTokensForSettingsActionCode envD settingsStoreW publicClientW settingsRequestW with
      | .ok (_, st2) => st2.settingsGrants
      | .error _ => settingsStoreW.settingsGrants) = [] := by
  have h : IssueTokensForSettingsActionCode envD settingsStoreW publicClientW settingsRequestW =
      .ok ({}, { settingsStoreW with settingsGrants := [] }) := by decide
  have h2 := ((c7_settings_action_exchange envD).2 settingsStoreW publicClientW settingsRequestW
    {} { settingsStoreW with settingsGrants := [] } h)
  refine ⟨h2.1, ?_⟩
  rw [h]

/-- C9: the `panic("oauth: unexpected grant type")` branch of the
dispatcher is unreachable - `doHandle` never reaches it for any request,
because any grant type outside the eight recognized values is rejected by
`validateRequest` with `unsupported_grant_type` before dispatch. -/
theorem c9_panic_unreachable (env : Env) (stubs : HandlerStubs) (st : Store)
    (client : OAuthClientConfig) (r : TokenRequest) :
    doHandle env stubs st client r ≠ .panicUnexpectedGrantType ∧
    (whitelistedGrantTypes.contains r.grantType = false →
      doHandle env stubs st client r =
        .err ⟨"unsupported_grant_type", "grant type is not supported"⟩) := by
  have hlift : ∀ x : Except OAuthError (TokenResponse × Store),
      liftResult x ≠ HandleResult.panicUnexpectedGrantType := by
    intro x
    cases x with
    | ok p =>
      cases p
      simp [liftResult]
    | error e => simp [liftResult]
  constructor
  · unfold doHandle
    cases hval : validateRequest r client with
    | some e => simp
    | none =>
      dsimp only
      split
      · split
        · exact hlift _
        · split
          · exact hlift _
          · split
            · exact hlift _
            · split
              · exact hlift _
              · split
                · exact hlift _
                · split
                  · exact hlift _
                  · split
                    · exact hlift _
                    · split
                      · exact hlift _
                      · exfalso
                        unfold validateRequest at hval
                        simp_all
      · simp
  · intro hc
    have hall : (r.grantType == AuthorizationCodeGrantType) = false ∧
        (r.grantType == RefreshTokenGrantType) = false ∧
        (r.grantType == AnonymousRequestGrantType) = false ∧
        (r.grantType == BiometricRequestGrantType) = false ∧
        (r.grantType == App2AppRequestGrantType) = false ∧
        (r.grantType == IDTokenGrantType) = false ∧
        (r.grantType == SettingsActionGrantType) = false ∧
        (r.grantType == TokenExchangeGrantType) = false := by
      unfold whitelistedGrantTypes at hc
      simp only [List.contains_cons, List.contains_nil, Bool.or_eq_false_iff] at hc
      obtain ⟨h1, h2, h3, h4, h5, h6, h7, h8, _⟩ := hc
      exact ⟨h1, h2, h3, h4, h5, h6, h7, h8⟩
    obtain ⟨h1, h2, h3, h4, h5, h6, h7, h8⟩ := hall
    have hval : validateRequest r client =
        some ⟨"unsupported_grant_type", "grant type is not supported"⟩ := by
      unfold validateRequest
      rw [h1, h2, h3, h4, h5, h6, h7, h8]
      rfl
    unfold doHandle
    rw [hval]

def unknownGrantRequest : TokenRequest :=
  { grantType := "urn:example:bogus" }

/-- C9 witness: a request with an unrecognized grant type is rejected with
`unsupported_grant_type` and does not reach the panic branch. -/
theorem c9_panic_unreachable_witness :
    doHandle envD
        ⟨fun st _ => .ok ({}, st), fun st _ => .ok ({}, st), fun st _ => .ok ({}, st),
         fun st _ => .ok ({}, st), fun st _ => .ok ({}, st), fun st _ => .ok ({}, st)⟩
        {} publicClientW unknownGrantRequest =
      .err ⟨"unsupported_grant_type", "grant type is not supported"⟩ ∧
    doHandle envD
        ⟨fun st _ => .ok ({}, st), fun st _ => .ok ({}, st), fun st _ => .ok ({}, st),
         fun st _ => .ok ({}, st), fun st _ => .ok ({}, st), fun st _ => .ok ({}, st)⟩
        {} publicClientW unknownGrantRequest ≠ .panicUnexpectedGrantType := by
  constructor
  · exact (c9_panic_unreachable envD _ {} publicClientW unknownGrantRequest).2 (by decide)
  · exact (c9_panic_unreachable envD _ {} publicClientW unknownGrantRequest).1

/-- C10: grant-specific required-field validation runs before the client
grant-type whitelist check: a request whose grant type is absent from the
client's own allowed list but which is missing a required field is answered
with the `invalid_request` error naming the field, never with
`unauthorized_client`. -/
theorem c10_field_validation_before_whitelist (env : Env) (stubs : HandlerStubs) (st : Store)
    (client : OAuthClientConfig) (r : TokenRequest) (e : OAuthError)
    (hnotallowed : client.grantTypes.contains r.grantType = false)
    (hval : validateRequest r client = some e)
    (hcode : e.code = "invalid_request") :
    doHandle env stubs st client r = .err e ∧ e.code ≠ "unauthorized_client" := by
  constructor
  · unfold doHandle
    rw [hval]
  · rw [hcode]
    decide

def noCodeRequest : TokenRequest :=
  { grantType := AuthorizationCodeGrantType, codeParam := "" }

def noGrantTypesClient : OAuthClientConfig :=
  { publicClientW with grantTypes := [] }

/-- C10 witness: an authorization-code request with no code, sent for a
client whose own grant-type list is empty, is answered with
`invalid_request` naming the missing code. -/
theorem c10_field_validation_before_whitelist_witness :
    doHandle envD
        ⟨fun st _ => .ok ({}, st), fun st _ => .ok ({}, st), fun st _ => .ok ({}, st),
         fun st _ => .ok ({}, st), fun st _ => .ok ({}, st), fun st _ => .ok ({}, st)⟩
        {} noGrantTypesClient noCodeRequest =
      .err ⟨"invalid_request", "code is required"⟩ := by
  exact (c10_field_validation_before_whitelist envD _ {} noGrantTypesClient noCodeRequest
    ⟨"invalid_request", "code is required"⟩ (by decide) (by decide) rfl).1

/-- C2: in the authorization-code exchange (with the code found, device
info parsed, DPoP matching, the code unexpired and the redirect URI
matching), PKCE verification is performed exactly when the client is
public, or the stored challenge is non-empty, or a verifier is supplied:
when performed, a verifier whose S256 digest differs from the stored
challenge fails the exchange with the generic `invalid_grant` error, and
when the digest matches - or verification is not required - the check
phase reduces to the client-secret check alone. -/
theorem c2_pkce_verification (env : Env) (st : Store) (client : OAuthClientConfig)
    (r : TokenRequest) (grant : CodeGrant) (d : String)
    (hdev : r.deviceInfo = some d)
    (hlook : assocLookup (HashToken r.codeParam) st.codeGrants = some grant)
    (hdpop : matchDPoPJKT grant.dpopJKT env.dpopProof = true)
    (hexp : ¬ env.now > grant.expireAt)
    (hredir : grant.redirectURI = r.redirectURI) :
    ((clientIsPublic client || grant.authReqCodeChallenge != "" || r.codeVerifier != "") = true →
      env.s256 r.codeVerifier ≠ grant.authReqCodeChallenge →
      IssueTokensForAuthorizationCode env st client r = .error errInvalidAuthzCode) ∧
    (((clientIsPublic client || grant.authReqCodeChallenge != "" || r.codeVerifier != "") = false ∨
       env.s256 r.codeVerifier = grant.authReqCodeChallenge) →
      authCodeChecks env client grant r = verifyClientSecret env client r) := by
  have hr2 : (grant.redirectURI != r.redirectURI) = false := by simp [bne, hredir]
  constructor
  · intro hneed hmis
    have hchecks : authCodeChecks env client grant r = some errInvalidAuthzCode := by
      unfold authCodeChecks
      rw [if_neg hexp, hr2]
      simp only [Bool.false_eq_true, if_false]
      have hb : (env.s256 r.codeVerifier != grant.authReqCodeChallenge) = true := by
        simp [bne, hmis]
      rw [hneed, hb]
      rfl
    unfold IssueTokensForAuthorizationCode
    rw [hdev]
    dsimp only
    rw [hlook]
    dsimp only
    rw [hdpop]
    simp only [Bool.not_true, Bool.false_eq_true, if_false]
    rw [hchecks]
  · intro hor
    unfold authCodeChecks
    rw [if_neg hexp, hr2]
    simp only [Bool.false_eq_true, if_false]
    cases hor with
    | inl hno =>
      rw [hno]
      simp only [Bool.false_and, Bool.false_eq_true, if_false]
    | inr heq =>
      have hb : (env.s256 r.codeVerifier != grant.authReqCodeChallenge) = false := by
        simp [bne, heq]
      rw [hb]
      simp only [Bool.and_false, Bool.false_eq_true, if_false]

def pkceGrantW : CodeGrant :=
  { settingsGrantW with authReqCodeChallenge := "other-challenge" }

def pkceStoreW : Store :=
  { codeGrants := [(HashToken "code1", pkceGrantW)] }

/-- C2 witness: with a stored challenge different from the S256 digest of
the supplied verifier, the exchange fails with the generic invalid
authorization code error. -/
theorem c2_pkce_verification_witness :
    IssueTokensForAuthorizationCode envD pkceStoreW publicClientW settingsRequestW =
      .error errInvalidAuthzCode := by
  exact (c2_pkce_verification envD pkceStoreW publicClientW settingsRequestW pkceGrantW ""
    (by decide) (by decide) (by decide) (by decide) (by decide)).1 (by decide) (by decide)

/-- C1: the authorization code is single-use: a successful exchange deletes
the CodeGrant from the store, and afterwards the same request fails with
the generic `invalid authorization code` error; an unknown code and a code
past its expiry (with the request otherwise well-formed: device info
parsed and the DPoP binding matching) fail with that same generic
`invalid_grant` error. -/
theorem c1_code_exchange_single_use (env : Env) (st : Store) (client : OAuthClientConfig)
    (r : TokenRequest) :
    (∀ resp st2, IssueTokensForAuthorizationCode env st client r = .ok (resp, st2) →
      st2.codeGrants = assocDelete (HashToken r.codeParam) st.codeGrants ∧
      IssueTokensForAuthorizationCode env st2 client r = .error errInvalidAuthzCode) ∧
    (∀ d, r.deviceInfo = some d →
      assocLookup (HashToken r.codeParam) st.codeGrants = none →
      IssueTokensForAuthorizationCode env st client r = .error errInvalidAuthzCode) ∧
    (∀ d grant, r.deviceInfo = some d →
      assocLookup (HashToken r.codeParam) st.codeGrants = some grant →
      matchDPoPJKT grant.dpopJKT env.dpopProof = true →
      env.now > grant.expireAt →
      IssueTokensForAuthorizationCode env st client r = .error errInvalidAuthzCode) := by
  refine ⟨?_, ?_, ?_⟩
  · intro resp st2 h
    unfold IssueTokensForAuthorizationCode at h
    split at h
    · exact absurd h (by simp)
    · rename_i d hdev
      dsimp only at h
      split at h
      · exact absurd h (by simp)
      · rename_i grant hlook
        split at h
        · exact absurd h (by simp)
        · rename_i hdpop
          split at h
          · exact absurd h (by simp)
          · rename_i hchecks
            split at h
            · exact absurd h (by simp)
            · rename_i authz hauthz
              split at h
              · exact absurd h (by simp)
              · rename_i respD stD hdo
                simp only [Except.ok.injEq, Prod.mk.injEq] at h
                obtain ⟨hresp, hst2⟩ := h
                have hpres := doIssue_codeGrants env st client grant authz
                  r.app2appDeviceKeyJWT respD stD hdo
                have hdel : st2.codeGrants =
                    assocDelete (HashToken r.codeParam) st.codeGrants := by
                  rw [← hst2]
                  dsimp only
                  rw [hpres]
                refine ⟨hdel, ?_⟩
                have hlook2 : assocLookup (HashToken r.codeParam) st2.codeGrants = none := by
                  rw [hdel]
                  exact assocLookup_delete_self ..
                unfold IssueTokensForAuthorizationCode
                rw [hdev]
                dsimp only
                rw [hlook2]
  · intro d hdev hlook
    unfold IssueTokensForAuthorizationCode
    rw [hdev]
    dsimp only
    rw [hlook]
  · intro d grant hdev hlook hdpop hexp
    have hchecks : authCodeChecks env client grant r = some errInvalidAuthzCode := by
      unfold authCodeChecks
      rw [if_pos hexp]
    unfold IssueTokensForAuthorizationCode
    rw [hdev]
    dsimp only
    rw [hlook]
    dsimp only
    rw [hdpop]
    simp only [Bool.not_true, Bool.false_eq_true, if_false]
    rw [hchecks]

def c1GrantW : CodeGrant :=
  { settingsGrantW with authReqScopes := ["openid", "offline_access"] }

def c1StoreW : Store :=
  { codeGrants := [(HashToken "code1", c1GrantW)]
    authorizations := [("authz1", ⟨"authz1", "user1", ["openid", "offline_access"]⟩)] }

def c1Run : Except OAuthError (TokenResponse × Store) :=
  IssueTokensForAuthorizationCode envD c1StoreW publicClientW settingsRequestW

def c1Resp : TokenResponse :=
  match c1Run with
  | .ok (rp, _) => rp
  | .error _ => {}

def c1St2 : Store :=
  match c1Run with
  | .ok (_, s) => s
  | .error _ => c1StoreW

/-- C1 witness: a concrete valid exchange succeeds, deletes the code grant,
and replaying the same request fails with the generic error. -/
theorem c1_code_exchange_single_use_witness :
    c1Run = .ok (c1Resp, c1St2) ∧
    c1St2.codeGrants = assocDelete (HashToken "code1") c1StoreW.codeGrants ∧
    IssueTokensForAuthorizationCode envD c1St2 publicClientW settingsRequestW =
      .error errInvalidAuthzCode := by
  have hok : c1Run = .ok (c1Resp, c1St2) := by decide
  have h := (c1_code_exchange_single_use envD c1StoreW publicClientW settingsRequestW).1
    c1Resp c1St2 hok
  exact ⟨hok, h.1, h.2⟩

theorem revokeFold_offlineGrants (l : List OfflineGrant) (st : Store) :
    (l.foldl sessionManagerRevokeWithoutEvent st).offlineGrants =
      st.offlineGrants.filter (fun x => l.all (fun g => x.id != g.id)) := by
  induction l generalizing st with
  | nil => simp
  | cons g rest ih =>
    rw [List.foldl_cons, ih]
    unfold sessionManagerRevokeWithoutEvent
    dsimp only
    rw [List.filter_filter]
    apply List.filter_congr
    intro x _
    rw [List.all_cons]
    exact Bool.and_comm ..

theorem revokeFold_events (l : List OfflineGrant) (st : Store) :
    (l.foldl sessionManagerRevokeWithoutEvent st).events = st.events := by
  induction l generalizing st with
  | nil => rfl
  | cons g rest ih =>
    rw [List.foldl_cons, ih]
    rfl

theorem revokeClientOfflineGrants_offlineGrants (st : Store) (client : OAuthClientConfig)
    (userID : String) (hids : (st.offlineGrants.map (fun g => g.id)).Nodup) :
    (revokeClientOfflineGrants st client userID).offlineGrants =
      st.offlineGrants.filter
        (fun g => !(g.clientID == client.clientID && g.userID == userID)) := by
  unfold revokeClientOfflineGrants listClientOfflineGrants
  rw [revokeFold_offlineGrants]
  apply List.filter_congr
  intro x hx
  by_cases hp : (x.clientID == client.clientID && x.userID == userID) = true
  · have hxmem : x ∈ st.offlineGrants.filter
        (fun g => g.clientID == client.clientID && g.userID == userID) :=
      List.mem_filter.mpr ⟨hx, hp⟩
    have hall : ((st.offlineGrants.filter
        (fun g => g.clientID == client.clientID && g.userID == userID)).all
          (fun g => x.id != g.id)) = false := by
      rw [List.all_eq_false]
      exact ⟨x, hxmem, by simp⟩
    rw [hall, hp]
    rfl
  · have hpf : (x.clientID == client.clientID && x.userID == userID) = false :=
      Bool.eq_false_iff.mpr hp
    rw [hpf]
    have hall : ((st.offlineGrants.filter
        (fun g => g.clientID == client.clientID && g.userID == userID)).all
          (fun g => x.id != g.id)) = true := by
      rw [List.all_eq_true]
      intro g hg
      have hgm := List.mem_filter.mp hg
      by_contra hne
      have hid : x.id = g.id := by
        simpa [bne] using hne
      have hxg : x = g := List.inj_on_of_nodup_map hids hx hgm.1 hid
      rw [hxg, hgm.2] at hpf
      cases hpf
    rw [hall]
    rfl

/-- C5: when a client with `MaxConcurrentSession == 1` is issued a new
offline grant with revocation of existing grants requested, every existing
offline grant of that (client, user) pair is revoked through the session
manager without firing the session-ended event (the event log is
unchanged), and the new grant is created on the store that results from
the revocation. -/
theorem c5_max_concurrent_single_session (env : Env) (st : Store) (client : OAuthClientConfig)
    (userID : String) (resp : Option TokenResponse) (opts : IssueOfflineGrantOptions)
    (hmax : client.maxConcurrentSession = 1)
    (hids : (st.offlineGrants.map (fun g => g.id)).Nodup) :
    (issueOfflineGrant env st client userID resp opts true).1.offlineGrants =
      (issueOfflineGrant env st client userID resp opts true).2.1 ::
        st.offlineGrants.filter
          (fun g => !(g.clientID == client.clientID && g.userID == userID)) ∧
    (issueOfflineGrant env st client userID resp opts true).1.events = st.events := by
  have hrev := revokeClientOfflineGrants_offlineGrants st client userID hids
  have hrevev : (revokeClientOfflineGrants st client userID).events = st.events := by
    unfold revokeClientOfflineGrants
    exact revokeFold_events ..
  unfold issueOfflineGrant
  rw [hmax]
  rw [if_pos (show (true && (1 : Nat) == 1) = true from rfl)]
  unfold tokenServiceIssueOfflineGrant
  dsimp only
  constructor
  · rw [hrev]
  · exact hrevev

def c5GrantOld1 : OfflineGrant :=
  { grantBoundA with id := "old1", clientID := "client1", userID := "user1" }

def c5GrantOld2 : OfflineGrant :=
  { grantBoundA with id := "old2", clientID := "client1", userID := "user1" }

def c5GrantOther : OfflineGrant :=
  { grantBoundA with id := "other1", clientID := "client2", userID := "user1" }

def c5Store : Store :=
  { offlineGrants := [c5GrantOld1, c5GrantOld2, c5GrantOther] }

def c5Client : OAuthClientConfig :=
  { publicClientW with maxConcurrentSession := 1 }

def c5Opts : IssueOfflineGrantOptions :=
  { scopes := ["offline_access"]
    authorizationID := "authz1"
    authenticationInfo :=
      { userID := "user1"
        authenticatedAt := 0
        authenticatedBySessionType := ""
        authenticatedBySessionID := ""
        shouldFireAuthenticatedEventWhenIssueOfflineGrant := false } }

/-- C5 witness: issuing a grant for (client1, user1) with two existing
grants for that pair and one for another client revokes exactly the two,
keeps the other, fires no event, and creates the new grant. -/
theorem c5_max_concurrent_single_session_witness :
    (issueOfflineGrant envD c5Store c5Client "user1" none c5Opts true).1.offlineGrants =
      (issueOfflineGrant envD c5Store c5Client "user1" none c5Opts true).2.1 ::
        [c5GrantOther] ∧
    (issueOfflineGrant envD c5Store c5Client "user1" none c5Opts true).1.events = [] := by
  have h := c5_max_concurrent_single_session envD c5Store c5Client "user1" none c5Opts
    (by decide) (by decide)
  refine ⟨?_, h.2⟩
  rw [h.1]
  rfl

theorem mkIDToken_ne_empty (c s n d : String) : mkIDToken c s n d ≠ "" := by
  intro h
  have hl := congrArg String.length h
  unfold mkIDToken at hl
  simp only [String.length_append] at hl
  have h9 : "id-token-".length = 9 := by decide
  have h0 : "".length = 0 := by decide
  omega

theorem sessionStep_refresh_token_ne_empty (env : Env) (st : Store) (client : OAuthClientConfig)
    (code : CodeGrant) (opts : IssueOfflineGrantOptions) (resp : TokenResponse)
    (sr : SessionResult)
    (h : sessionStep env st client code opts true resp = .ok sr) :
    sr.resp.refresh_token ≠ "" := by
  unfold sessionStep at h
  rw [if_pos rfl] at h
  dsimp only at h
  split at h
  · exact absurd h (by simp)
  · rename_i st3 og th resp3 heq
    have h3 : resp3.refresh_token ≠ "" := by
      split at heq
      · unfold tokenServiceIssueRefreshTokenForOfflineGrant at heq
        split at heq
        · exact absurd heq (by simp)
        · simp only [Except.ok.injEq, Prod.mk.injEq] at heq
          obtain ⟨_, _, _, h4⟩ := heq
          rw [← h4]
          exact string_append_ne_empty _ _ (by decide)
      · simp only [Except.ok.injEq, Prod.mk.injEq] at heq
        obtain ⟨_, _, _, h4⟩ := heq
        rw [← h4]
        unfold issueOfflineGrant tokenServiceIssueOfflineGrant
        dsimp only
        split
        · dsimp only [Option.map, Option.getD]
          exact string_append_ne_empty _ _ (by decide)
        · dsimp only [Option.map, Option.getD]
          exact string_append_ne_empty _ _ (by decide)
    simp only [Except.ok.injEq] at h
    rw [← h]
    exact h3

theorem doIssue_tokens_nonempty (env : Env) (st : Store) (client : OAuthClientConfig)
    (code : CodeGrant) (authz : Authorization) (jwtStr : String) (resp : TokenResponse)
    (st2 : Store)
    (hopen : code.authReqScopes.contains "openid" = true)
    (hoffline : code.authReqScopes.contains OfflineAccess = true)
    (hrt : client.grantTypes.contains RefreshTokenGrantType = true)
    (h : doIssueTokensForAuthorizationCode env st client code authz jwtStr = .ok (resp, st2)) :
    resp.access_token ≠ "" ∧ resp.refresh_token ≠ "" ∧ resp.id_token ≠ "" := by
  unfold doIssueTokensForAuthorizationCode at h
  dsimp only at h
  rw [hopen, hoffline, hrt] at h
  simp only [Bool.and_self] at h
  split at h
  · exact absurd h (by simp)
  · rename_i key stA heqA
    split at h
    · exact absurd h (by simp)
    · rename_i stB respB heqB
      split at h
      · exact absurd h (by simp)
      · rename_i sr heqC
        have hrt2 : sr.resp.refresh_token ≠ "" :=
          sessionStep_refresh_token_ne_empty env stB client code _ respB sr heqC
        split at h
        · exact absurd h (by simp)
        · rw [if_pos trivial] at h
          split at h
          · exact absurd h (by simp)
          · simp only [Except.ok.injEq, Prod.mk.injEq] at h
            obtain ⟨hresp, _⟩ := h
            rw [← hresp]
            dsimp only
            refine ⟨?_, ?_, ?_⟩
            · exact string_append_ne_empty _ _ (by decide)
            · exact hrt2
            · exact mkIDToken_ne_empty _ _ _ _

def c8Client : OAuthClientConfig :=
  { clientID := "client8"
    grantTypes := []
    isConfidentialClient := true
    app2appEnabled := false
    app2appInsecureDeviceKeyBindingEnabled := false
    maxConcurrentSession := 0 }

def c8Grant : CodeGrant :=
  { settingsGrantW with authReqScopes := ["openid", "offline_access"] }

def c8Store : Store :=
  { codeGrants := [(HashToken "code1", c8Grant)]
    authorizations := [("authz1", ⟨"authz1", "user1", ["openid", "offline_access"]⟩)] }

def c8Request : TokenRequest :=
  { grantType := AuthorizationCodeGrantType
    codeParam := "code1"
    codeVerifier := "ver"
    redirectURI := "https://app/cb"
    clientSecret := "secret1" }

def c8Run : Except OAuthError (TokenResponse × Store) :=
  IssueTokensForAuthorizationCode envD c8Store c8Client c8Request

def c8RespOf : TokenResponse :=
  match c8Run with
  | .ok (rp, _) => rp
  | .error _ => {}

/-- C8 counterexample: for a confidential client whose grant-type list does
not include `refresh_token`, the exchange of a code carrying scopes
`["openid", "offline_access"]` succeeds yet returns an empty
`refresh_token`, refuting the claim as stated. -/
theorem c8_counterexample :
    (match c8Run with
      | .ok _ => true
      | .error _ => false) = true ∧
    c8RespOf.refresh_token = "" ∧
    c8RespOf.access_token ≠ "" ∧
    c8RespOf.id_token ≠ "" ∧
    (assocLookup (HashToken c8Request.codeParam) c8Store.codeGrants).map
        (fun g => g.authReqScopes) = some ["openid", "offline_access"] := by
  refine ⟨?_, ?_, ?_, ?_, ?_⟩ <;> decide

/-- C8 (amended): a successful authorization-code exchange for a code whose
authorization request carries scopes `["openid", "offline_access"]`, made
by a client whose grant types include `refresh_token`, returns a token
response with non-empty `access_token`, `refresh_token` and `id_token`. -/
theorem c8_token_response_nonempty (env : Env) (st : Store) (client : OAuthClientConfig)
    (r : TokenRequest) (resp : TokenResponse) (st2 : Store) (grant : CodeGrant)
    (hlook : assocLookup (HashToken r.codeParam) st.codeGrants = some grant)
    (hscopes : grant.authReqScopes = ["openid", "offline_access"])
    (hrt : client.grantTypes.contains RefreshTokenGrantType = true)
    (hok : IssueTokensForAuthorizationCode env st client r = .ok (resp, st2)) :
    resp.access_token ≠ "" ∧ resp.refresh_token ≠ "" ∧ resp.id_token ≠ "" := by
  unfold IssueTokensForAuthorizationCode at hok
  split at hok
  · exact absurd hok (by simp)
  · rename_i d hdev
    dsimp only at hok
    split at hok
    · exact absurd hok (by simp)
    · rename_i grant2 hlook2
      rw [hlook] at hlook2
      injection hlook2 with hg
      subst hg
      split at hok
      · exact absurd hok (by simp)
      · split at hok
        · exact absurd hok (by simp)
        · split at hok
          · exact absurd hok (by simp)
          · rename_i authz hauthz
            split at hok
            · exact absurd hok (by simp)
            · rename_i respD stD hdo
              simp only [Except.ok.injEq, Prod.mk.injEq] at hok
              obtain ⟨hresp, _⟩ := hok
              rw [← hresp]
              exact doIssue_tokens_nonempty env st client grant authz
                r.app2appDeviceKeyJWT respD stD
                (by rw [hscopes]; decide) (by rw [hscopes]; decide) hrt hdo

def c8ClientRT : OAuthClientConfig :=
  { c8Client with grantTypes := [RefreshTokenGrantType] }

def c8RunRT : Except OAuthError (TokenResponse × Store) :=
  IssueTokensForAuthorizationCode envD c8Store c8ClientRT c8Request

def c8RespRT : TokenResponse :=
  match c8RunRT with
  | .ok (rp, _) => rp
  | .error _ => {}

def c8StRT : Store :=
  match c8RunRT with
  | .ok (_, s) => s
  | .error _ => c8Store

/-- C8 witness: the amended claim at a concrete exchange - with
`refresh_token` among the client's grant types, all three tokens in the
response are non-empty. -/
theorem c8_token_response_nonempty_witness :
    c8RespRT.access_token ≠ "" ∧ c8RespRT.refresh_token ≠ "" ∧ c8RespRT.id_token ≠ "" := by
  have hok : c8RunRT = .ok (c8RespRT, c8StRT) := by decide
  exact c8_token_response_nonempty envD c8Store c8ClientRT c8Request c8RespRT c8StRT c8Grant
    (by decide) (by decide) (by decide) hok
